import Mathlib

/-!
Shallow embedding of `PcaPsfDeterminer.determinePsf` and `PcaPsfDeterminer._fitPsf`
from `python/lsst/meas/algorithms/pcaPsfDeterminer.py` (Python 2 source).

The numeric collaborators that live in C++ (`algorithmsLib.createKernelFromPsfCandidates`,
`fitSpatialKernelFromPsfCandidates`, `fitKernelParamsToImage`,
`afwMath.makeStatistics` with `MEANCLIP | STDEVCLIP`) are modelled as oracle
parameters: the Python orchestration under verification only consumes their
outputs (per-candidate chi-square, per-candidate spatial-residual vectors,
robust mean / robust standard deviation of a list).  Candidate cutout
construction (`cand.getUndistImage`), which can raise, is modelled by a
`cutoutOk` flag on each candidate.
-/

namespace PcaPsf

/-- Candidate status, mirroring `afwMath.SpatialCellCandidate` status values. -/
inductive Status where
  | UNKNOWN : Status
  | GOOD : Status
  | BAD : Status
deriving DecidableEq, Repr

/-- One PSF candidate as seen by the clipping code of `determinePsf`:
its reduced chi-square from the last basis fit (`cand.getChi2()`), whether
that value is NaN, whether `cand.getUndistImage(...)` succeeds this
iteration, the per-basis-component spatial residual vector
(`[a / amp - p for a, p in zip(params, predict)]`, whose numeric inputs come
from the C++ fit and are therefore oracle data here), and its status. -/
structure Cand where
  cid : Nat
  chi2 : ℚ
  chi2Nan : Bool
  cutoutOk : Bool
  resid : List ℚ
  status : Status
deriving DecidableEq, Repr

/-- The configuration fields of `PcaPsfDeterminerConfig` used by the claims. -/
structure Config where
  kernelSize : ℤ
  kernelSizeMin : ℤ
  kernelSizeMax : ℤ
  borderWidth : ℤ
  nIterForPsf : Nat
  reducedChi2ForPsfCandidates : ℚ
  spatialReject : ℚ
deriving DecidableEq, Repr

/-- `int(len(badCandidates) * (iter + 1) / self.config.nIterForPsf + 0.5)`.
All three operands of the division are Python 2 `int`s, so `/` is floor
division; the `+ 0.5` is then applied to an exact integer-valued float and
`int` truncates it away again, so the value is the integer quotient
(`numBadOf_eq_trunc_form` below records that the literal `int(... + 0.5)`
shape agrees). -/
def numBadOf (count nIter iter : Nat) : Nat :=
  count * (iter + 1) / nIter

/-- The spec's stated formula for the graduated clip count:
`numBad = round(len(removalCandidates) × (iter+1) / nIterations)`, with
exact (rational) division and rounding. -/
def numBadSpecRound (count nIter iter : Nat) : ℤ :=
  round (((count * (iter + 1) : Nat) : ℚ) / (nIter : ℚ))

/-- `rchi2 < 0 or rchi2 > self.config.reducedChi2ForPsfCandidates or numpy.isnan(rchi2)`. -/
def chi2Violates (cfg : Config) (c : Cand) : Bool :=
  decide (c.chi2 < 0) || decide (cfg.reducedChi2ForPsfCandidates < c.chi2) || c.chi2Nan

/-- Sort key for `badCandidates.sort(key=lambda x: x.getChi2(), reverse=True)`:
descending chi-square. -/
def chi2DescRel (a b : Nat × Cand) : Prop := b.2.chi2 ≤ a.2.chi2

instance : DecidableRel chi2DescRel :=
  fun a b => inferInstanceAs (Decidable (b.2.chi2 ≤ a.2.chi2))

/-- The chi-square-violating candidates collected by Pass A
(`for cell ... for cand in cell.begin(False)`, i.e. over every candidate,
BAD included), carried with their position in the candidate list (positions
stand for Python object identity). -/
def passAFlagged (cfg : Config) (st : List Cand) : List (Nat × Cand) :=
  st.enum.filter (fun p => chi2Violates cfg p.2)

/-- Pass A's flagged candidates sorted by chi-square descending. -/
def passASorted (cfg : Config) (st : List Cand) : List (Nat × Cand) :=
  List.insertionSort chi2DescRel (passAFlagged cfg st)

/-- Positions marked BAD by Pass A: the first `numBad` of the sorted flagged
list (`for i, c in zip(range(numBad), badCandidates): c.setStatus(BAD)`). -/
def passABadIdx (cfg : Config) (iter : Nat) (st : List Cand) : List Nat :=
  ((passASorted cfg st).take
    (numBadOf (passAFlagged cfg st).length cfg.nIterForPsf iter)).map Prod.fst

/-- `c.setStatus(afwMath.SpatialCellCandidate.BAD)` applied to the candidates
at the given positions. -/
def setBadAt (badIdx : List Nat) (st : List Cand) : List Cand :=
  st.enum.map (fun p => if p.1 ∈ badIdx then { p.2 with status := Status.BAD } else p.2)

/-- Pass A, the global chi-square clip (lines 315-330). -/
def passA (cfg : Config) (iter : Nat) (st : List Cand) : List Cand :=
  setBadAt (passABadIdx cfg iter st) st

/-- The status reset at the start of each clipping round (lines 307-310):
`cell.begin(False)` includes BAD candidates, so every status becomes UNKNOWN. -/
def resetAll (st : List Cand) : List Cand :=
  st.map (fun c => { c with status := Status.UNKNOWN })

/-- The candidates whose residual records are built (lines 345-367): the loop
runs `for cand in cell.begin(False)` — over every candidate, whatever its
status — and `continue`s only when `cand.getUndistImage(...)` raises, i.e.
exactly the candidates with `cutoutOk`. -/
def residCands (st : List Cand) : List (Nat × Cand) :=
  st.enum.filter (fun p => p.2.cutoutOk)

/-- Following the spec's words (for comparison with `residCands`): residual
records "for each non-BAD candidate", i.e. only candidates with status ≠ BAD
whose cutout can be constructed. -/
def residCandsSpec (st : List Cand) : List (Nat × Cand) :=
  st.enum.filter (fun p => p.2.cutoutOk && !(p.2.status == Status.BAD))

/-- Column `k` of the `residuals` matrix (`residuals[:,k]`) over a candidate
list. -/
def residColumn (cands : List (Nat × Cand)) (k : Nat) : List ℚ :=
  cands.map (fun p => p.2.resid.getD k 0)

/-- Sort key for Pass B:
`badCandidates.sort(key=lambda x: numpy.fabs(residuals[x,k] - mean), reverse=True)`. -/
def residDescRel (mean : ℚ) (k : Nat) (a b : Nat × Cand) : Prop :=
  |b.2.resid.getD k 0 - mean| ≤ |a.2.resid.getD k 0 - mean|

instance (mean : ℚ) (k : Nat) : DecidableRel (residDescRel mean k) :=
  fun a b =>
    inferInstanceAs (Decidable (|b.2.resid.getD k 0 - mean| ≤ |a.2.resid.getD k 0 - mean|))

/-- `mean = stats.getValue(afwMath.MEANCLIP)` for component `k`, where
`robust` stands for the C++ `afwMath.makeStatistics` call on
`residuals[:,k]`. -/
def passBMean (robust : List ℚ → ℚ × ℚ) (cands : List (Nat × Cand)) (k : Nat) : ℚ :=
  (robust (residColumn cands k)).1

/-- `rms = stats.getValue(afwMath.STDEVCLIP)` for component `k`, floored by
`rms = max(1.0e-4, rms)`. -/
def passBRms (robust : List ℚ → ℚ × ℚ) (cands : List (Nat × Cand)) (k : Nat) : ℚ :=
  max (1/10000 : ℚ) (robust (residColumn cands k)).2

/-- The candidates flagged by component `k` of Pass B:
`numpy.fabs(residuals[i,k] - mean) > self.config.spatialReject * rms`. -/
def passBFlagged (cfg : Config) (robust : List ℚ → ℚ × ℚ) (k : Nat)
    (cands : List (Nat × Cand)) : List (Nat × Cand) :=
  cands.filter (fun p =>
    decide (cfg.spatialReject * passBRms robust cands k
      < |p.2.resid.getD k 0 - passBMean robust cands k|))

/-- Positions marked BAD by component `k` of Pass B: flagged candidates
sorted by absolute deviation descending, the first
`min(len(badCandidates), numBad)` taken
(`for i, c in zip(range(min(len(badCandidates), numBad)), badCandidates)`). -/
def passBBadIdx (cfg : Config) (robust : List ℚ → ℚ × ℚ) (iter k : Nat)
    (cands : List (Nat × Cand)) : List Nat :=
  ((List.insertionSort (residDescRel (passBMean robust cands k) k)
      (passBFlagged cfg robust k cands)).take
    (min (passBFlagged cfg robust k cands).length
      (numBadOf (passBFlagged cfg robust k cands).length cfg.nIterForPsf iter))).map
    Prod.fst

/-- One basis component `k` of Pass B (lines 370-406).  `cands` is the
candidate/residual table built once before the component loop; `st` is the
current status state being mutated. -/
def passBComp (cfg : Config) (robust : List ℚ → ℚ × ℚ) (iter k : Nat)
    (cands : List (Nat × Cand)) (st : List Cand) : List Cand :=
  setBadAt (passBBadIdx cfg robust iter k cands) st

/-- Pass B, the spatial-residual clip (lines 341-406): the residual table is
computed once from the post-Pass-A state, then each of the kernel's
`nComp` components applies its own graduated clip. -/
def passB (cfg : Config) (robust : List ℚ → ℚ × ℚ) (nComp iter : Nat)
    (st : List Cand) : List Cand :=
  (List.range nComp).foldl (fun s k => passBComp cfg robust iter k (residCands st) s) st

/-- One full clipping round of an iteration of `determinePsf`'s main loop:
reset every status to UNKNOWN (lines 307-310), then Pass A, then Pass B.
The round runs after that iteration's `_fitPsf` call, which is what wrote
the `chi2`/`resid` oracle fields consumed here. -/
def clipRound (cfg : Config) (robust : List ℚ → ℚ × ℚ) (nComp iter : Nat)
    (st : List Cand) : List Cand :=
  passB cfg robust nComp iter (passA cfg iter (resetAll st))

/-- Python 2 `int()` applied to a float: truncation toward zero. -/
noncomputable def pyTrunc (x : ℝ) : ℤ := if 0 ≤ x then ⌊x⌋ else ⌈x⌉

/-- `if self.config.kernelSize < self.config.kernelSizeMin:
self.config.kernelSize = self.config.kernelSizeMin` (lines 228-229). -/
def clampMin (lo v : ℤ) : ℤ := if v < lo then lo else v

/-- `if self.config.kernelSize > self.config.kernelSizeMax:
self.config.kernelSize = self.config.kernelSizeMax` (lines 230-231). -/
def clampMax (hi v : ℤ) : ℤ := if hi < v then hi else v

/-- The kernel-size derivation of `determinePsf` (lines 223-231), with the
median of the candidate sizes as the real number `m`:
`if kernelSize >= 15` the configured value is used verbatim
(`int(self.config.kernelSize)` on an `int` is the identity), otherwise
`kernelSize = 2 * int(kernelSize * sqrt(m) + 0.5) + 1`, then the
below-minimum and above-maximum clamps are applied in that order. -/
noncomputable def newKernelSize (cfg : Config) (m : ℝ) : ℤ :=
  if 15 ≤ cfg.kernelSize then cfg.kernelSize
  else
    clampMax cfg.kernelSizeMax
      (clampMin cfg.kernelSizeMin
        (2 * pyTrunc ((cfg.kernelSize : ℝ) * Real.sqrt m + 1/2) + 1))

/-- Following the claim's words (for comparison with `newKernelSize`): for
`kernelSize < 15` the derived size is `2·round(kernelSize·sqrt(m))+1`
clamped into `[kernelSizeMin, kernelSizeMax]`; for `kernelSize ≥ 15` the
configured value verbatim, with no scaling and no clamping. -/
noncomputable def claimKernelSize (cfg : Config) (m : ℝ) : ℤ :=
  if 15 ≤ cfg.kernelSize then cfg.kernelSize
  else
    max cfg.kernelSizeMin
      (min cfg.kernelSizeMax (2 * round ((cfg.kernelSize : ℝ) * Real.sqrt m) + 1))

/-- The frame effect of lines 223-231: both branches assign the derived size
back into `self.config.kernelSize` on the shared config object. -/
noncomputable def updateKernelSize (cfg : Config) (m : ℝ) : Config :=
  { cfg with kernelSize := newKernelSize cfg m }

/-- The `sizes` array construction (lines 210-221):
`sizes = numpy.ndarray(len(psfCandidateList))` allocates without
initializing; slot `i` is assigned `axes.getA()` only when
`psfCellSet.insertCandidate(psfCandidate)` did not raise (`ok` records
which insertions succeed, and the `except ... continue` skips the
assignment). `junk` models the arbitrary pre-existing contents of the
uninitialized allocation. -/
def buildSizes (ok : List Bool) (candSizes junk : List ℚ) : List ℚ :=
  (List.range ok.length).map
    (fun i => if ok.getD i false then candSizes.getD i 0 else junk.getD i 0)

/-- `numpy.median`: sort ascending; the middle element for odd length, the
mean of the two middle elements for even length. -/
def npMedian (xs : List ℚ) : ℚ :=
  let s := List.insertionSort (· ≤ ·) xs
  if s.length % 2 = 1 then s.getD (s.length / 2) 0
  else (s.getD (s.length / 2 - 1) 0 + s.getD (s.length / 2) 0) / 2

/-- Modelled from the spec: `algorithmsLib.countPsfCandidates` is C++ code of
this repository that is not under src/; per the spec's output guarantee the
eigenvalue denominator uses the "count of non-BAD candidates". -/
def countPsfCandidates (st : List Cand) : Nat :=
  (st.filter (fun c => !(c.status == Status.BAD))).length

/-- The eigenvalue normalization of `_fitPsf` (lines 158-162):
`size = kernelSize + 2*borderWidth; nu = size*size - 1;`
`eigenValues = [l / float(countPsfCandidates(...) * nu) for l in eigenValues]`. -/
def normalizedEigen (cfg : Config) (st : List Cand) (raw : List ℚ) : List ℚ :=
  let size := cfg.kernelSize + 2 * cfg.borderWidth
  let nu := size * size - 1
  raw.map (fun l => l / ((countPsfCandidates st : ℚ) * (nu : ℚ)))

/-- The products of one `_fitPsf` call that the orchestration consumes. -/
structure FitOut where
  psf : Nat
  eigen : List ℚ
  chi2 : ℚ
deriving DecidableEq, Repr

/-- The main loop (line 259): `for iter in range(self.config.nIterForPsf):`
first `psf, eigenValues, fitChi2 = self._fitPsf(exposure, psfCellSet)`
(line 302), then the clipping round.  `fit` models `_fitPsf`: the C++
fitting writes chi-squares back onto the candidates, so it returns both the
fit products and the updated candidate state; `clip` is the iteration's
clipping round.  Returns the trace of in-loop fit outputs and the candidate
state after the loop. -/
def runLoop (fit : List Cand → FitOut × List Cand)
    (clip : Nat → List Cand → List Cand) :
    Nat → Nat → List Cand → List FitOut × List Cand
  | 0, _, st => ([], st)
  | n + 1, iter, st =>
    let fo := fit st
    let st2 := clip iter fo.2
    let rest := runLoop fit clip n (iter + 1) st2
    (fo.1 :: rest.1, rest.2)

/-- `determinePsf`'s fit orchestration: the main loop, then one more
`psf, eigenValues, fitChi2 = self._fitPsf(exposure, psfCellSet)`
("One last time, to take advantage of the last iteration", lines 485-486),
and `return psf, psfCellSet` (line 535).  Returns the returned psf output,
the full trace of `_fitPsf` calls, and the final candidate state. -/
def determinePsfLoop (fit : List Cand → FitOut × List Cand)
    (clip : Nat → List Cand → List Cand) (nIter : Nat) (st0 : List Cand) :
    FitOut × List FitOut × List Cand :=
  let loop := runLoop fit clip nIter 0 st0
  let fin := fit loop.2
  (fin.1, loop.1 ++ [fin.1], fin.2)

/-- A concrete configuration with the default values of
`PcaPsfDeterminerConfig` for the fields the claims touch
(`kernelSize = 5`, `kernelSizeMin = 13`, `kernelSizeMax = 45`,
`borderWidth = 0`, `nIterForPsf = 3`, `reducedChi2ForPsfCandidates = 2.0`,
`spatialReject = 3.0`). -/
def cfgEx : Config :=
  { kernelSize := 5, kernelSizeMin := 13, kernelSizeMax := 45, borderWidth := 0,
    nIterForPsf := 3, reducedChi2ForPsfCandidates := 2, spatialReject := 3 }

/-- A concrete robust-statistics oracle: clipped mean 0, clipped stdev 1. -/
def robustEx : List ℚ → ℚ × ℚ := fun _ => (0, 1)

/-- Default candidate used with `List.getD`. -/
def cDef : Cand :=
  { cid := 0, chi2 := 0, chi2Nan := false, cutoutOk := true, resid := [],
    status := Status.UNKNOWN }

/-- One candidate whose reduced chi-square 3 exceeds the threshold 2. -/
def stOne : List Cand :=
  [{ cid := 0, chi2 := 3, chi2Nan := false, cutoutOk := true, resid := [0],
     status := Status.UNKNOWN }]

/-- Two candidates: the first chi-square-violating (chi2 = 3 > 2) with a
distinctive residual, the second healthy. -/
def stTwo : List Cand :=
  [{ cid := 0, chi2 := 3, chi2Nan := false, cutoutOk := true, resid := [5],
     status := Status.UNKNOWN },
   { cid := 1, chi2 := 1, chi2Nan := false, cutoutOk := true, resid := [0],
     status := Status.UNKNOWN }]

/-- Two candidates carrying stale statuses from a previous round: the first
chi-square-violating and currently GOOD, the second healthy but currently
BAD. -/
def stStale : List Cand :=
  [{ cid := 0, chi2 := 3, chi2Nan := false, cutoutOk := true, resid := [0],
     status := Status.GOOD },
   { cid := 1, chi2 := 1, chi2Nan := false, cutoutOk := true, resid := [0],
     status := Status.BAD }]

/-- Two candidates, the first of which fails cutout construction
(`getUndistImage` raises) while carrying an enormous residual that would
otherwise certainly be clipped. -/
def stFail : List Cand :=
  [{ cid := 0, chi2 := 1, chi2Nan := false, cutoutOk := false, resid := [1000],
     status := Status.UNKNOWN },
   { cid := 1, chi2 := 1, chi2Nan := false, cutoutOk := true, resid := [0],
     status := Status.UNKNOWN }]

/-- Insertion outcomes for a three-candidate run: only the first
`psfCellSet.insertCandidate` succeeds. -/
def okEx : List Bool := [true, false, false]

/-- Second-moment sizes of the three candidates (only slot 0 is ever read). -/
def csEx : List ℚ := [4, 0, 0]

/-- One possible content of the uninitialized `numpy.ndarray` allocation. -/
def junkA : List ℚ := [0, 4, 4]

/-- Another possible content of the same uninitialized allocation. -/
def junkB : List ℚ := [0, 9, 9]

/-! ## Helper lemmas -/

/-- The source's literal `int(<integer quotient> + 0.5)` shape equals
`numBadOf`: the `+ 0.5` is dead under Python 2 floor division. -/
theorem numBadOf_eq_trunc_form (count nIter iter : Nat) :
    (⌊((count * (iter + 1) / nIter : Nat) : ℚ) + 1/2⌋).toNat
      = numBadOf count nIter iter := by
  unfold numBadOf
  generalize count * (iter + 1) / nIter = q
  have h : ⌊((q : Nat) : ℚ) + 1/2⌋ = ((q : Nat) : ℤ) := by
    rw [Int.floor_eq_iff]
    constructor
    · push_cast; linarith
    · push_cast; linarith
  rw [h, Int.toNat_natCast]

theorem length_setBadAt (b : List Nat) (st : List Cand) :
    (setBadAt b st).length = st.length := by
  simp [setBadAt]

theorem getElem_setBadAt (b : List Nat) (st : List Cand) (i : Nat)
    (h : i < st.length) (h2 : i < (setBadAt b st).length) :
    (setBadAt b st)[i] =
      (if i ∈ b then { st[i] with status := Status.BAD } else st[i]) := by
  simp [setBadAt]

theorem length_resetAll (st : List Cand) : (resetAll st).length = st.length := by
  simp [resetAll]

theorem getElem_resetAll (st : List Cand) (i : Nat)
    (h : i < st.length) (h2 : i < (resetAll st).length) :
    (resetAll st)[i] = { st[i] with status := Status.UNKNOWN } := by
  simp [resetAll]

theorem length_passABadIdx (cfg : Config) (iter : Nat) (st : List Cand) :
    (passABadIdx cfg iter st).length =
      min (numBadOf (passAFlagged cfg st).length cfg.nIterForPsf iter)
        (passAFlagged cfg st).length := by
  simp [passABadIdx, passASorted, List.length_take, List.length_insertionSort]

theorem runLoop_trace_length (fit : List Cand → FitOut × List Cand)
    (clip : Nat → List Cand → List Cand) (n : Nat) :
    ∀ (iter : Nat) (st : List Cand), (runLoop fit clip n iter st).1.length = n := by
  induction n with
  | zero => intro iter st; rfl
  | succ n ih => intro iter st; simp [runLoop, ih]

theorem residCands_mem {st : List Cand} {p : Nat × Cand} (hp : p ∈ residCands st) :
    st[p.1]? = some p.2 ∧ p.2.cutoutOk = true := by
  unfold residCands at hp
  rw [List.mem_filter] at hp
  refine ⟨?_, by simpa using hp.2⟩
  have := hp.1
  rw [show p = (p.1, p.2) from rfl] at this
  exact List.mk_mem_enum_iff_getElem?.mp this

theorem length_passA (cfg : Config) (iter : Nat) (st : List Cand) :
    (passA cfg iter st).length = st.length := by
  unfold passA; exact length_setBadAt _ _

theorem status_setBadAt_cases (b : List Nat) (st : List Cand) (i : Nat)
    (h : i < st.length) (h2 : i < (setBadAt b st).length) :
    ((setBadAt b st)[i]).status = st[i].status ∨
      ((setBadAt b st)[i]).status = Status.BAD := by
  rw [getElem_setBadAt b st i h h2]
  split
  · exact Or.inr rfl
  · exact Or.inl rfl

theorem status_setBadAt_bad (b : List Nat) (st : List Cand) (i : Nat)
    (h : i < st.length) (h2 : i < (setBadAt b st).length)
    (hbad : st[i].status = Status.BAD) :
    ((setBadAt b st)[i]).status = Status.BAD := by
  rw [getElem_setBadAt b st i h h2]
  split
  · rfl
  · exact hbad

theorem length_passBComp (cfg : Config) (robust : List ℚ → ℚ × ℚ) (iter k : Nat)
    (cands : List (Nat × Cand)) (st : List Cand) :
    (passBComp cfg robust iter k cands st).length = st.length := by
  unfold passBComp; exact length_setBadAt _ _

theorem length_passBFold (cfg : Config) (robust : List ℚ → ℚ × ℚ) (iter : Nat)
    (cands : List (Nat × Cand)) :
    ∀ (ks : List Nat) (st : List Cand),
      (ks.foldl (fun s k => passBComp cfg robust iter k cands s) st).length
        = st.length := by
  intro ks
  induction ks with
  | nil => intro st; rfl
  | cons k ks ih =>
    intro st
    rw [List.foldl_cons, ih (passBComp cfg robust iter k cands st),
      length_passBComp]

theorem status_passBFold_cases (cfg : Config) (robust : List ℚ → ℚ × ℚ)
    (iter : Nat) (cands : List (Nat × Cand)) :
    ∀ (ks : List Nat) (st : List Cand) (i : Nat) (h : i < st.length)
      (h2 : i < (ks.foldl (fun s k => passBComp cfg robust iter k cands s) st).length),
      ((ks.foldl (fun s k => passBComp cfg robust iter k cands s) st)[i]).status
          = st[i].status ∨
        ((ks.foldl (fun s k => passBComp cfg robust iter k cands s) st)[i]).status
          = Status.BAD := by
  intro ks
  induction ks with
  | nil => intro st i h h2; exact Or.inl rfl
  | cons k ks ih =>
    intro st i h h2
    have hlen : i < (passBComp cfg robust iter k cands st).length := by
      rw [length_passBComp]; exact h
    have hstep : ((passBComp cfg robust iter k cands st)[i]).status = st[i].status ∨
        ((passBComp cfg robust iter k cands st)[i]).status = Status.BAD := by
      unfold passBComp
      exact status_setBadAt_cases _ _ i h (by rw [length_setBadAt]; exact h)
    have h2r : i < (List.foldl (fun s k => passBComp cfg robust iter k cands s)
        (passBComp cfg robust iter k cands st) ks).length := h2
    have hout : ((List.foldl (fun s k => passBComp cfg robust iter k cands s)
        (passBComp cfg robust iter k cands st) ks)[i]).status = st[i].status ∨
        ((List.foldl (fun s k => passBComp cfg robust iter k cands s)
          (passBComp cfg robust iter k cands st) ks)[i]).status = Status.BAD := by
      rcases ih (passBComp cfg robust iter k cands st) i hlen h2r with hsame | hbad
      · rw [hsame]; exact hstep
      · exact Or.inr hbad
    exact hout

theorem status_passBFold_bad (cfg : Config) (robust : List ℚ → ℚ × ℚ)
    (iter : Nat) (cands : List (Nat × Cand)) :
    ∀ (ks : List Nat) (st : List Cand) (i : Nat) (h : i < st.length)
      (h2 : i < (ks.foldl (fun s k => passBComp cfg robust iter k cands s) st).length),
      st[i].status = Status.BAD →
      ((ks.foldl (fun s k => passBComp cfg robust iter k cands s) st)[i]).status
        = Status.BAD := by
  intro ks
  induction ks with
  | nil => intro st i h h2 hbad; exact hbad
  | cons k ks ih =>
    intro st i h h2 hbad
    have hlen : i < (passBComp cfg robust iter k cands st).length := by
      rw [length_passBComp]; exact h
    have hstep : ((passBComp cfg robust iter k cands st)[i]).status = Status.BAD := by
      unfold passBComp
      exact status_setBadAt_bad _ _ i h (by rw [length_setBadAt]; exact h) hbad
    have h2r : i < (List.foldl (fun s k => passBComp cfg robust iter k cands s)
        (passBComp cfg robust iter k cands st) ks).length := h2
    have hout : ((List.foldl (fun s k => passBComp cfg robust iter k cands s)
        (passBComp cfg robust iter k cands st) ks)[i]).status = Status.BAD :=
      ih (passBComp cfg robust iter k cands st) i hlen h2r hstep
    exact hout

theorem length_passB (cfg : Config) (robust : List ℚ → ℚ × ℚ) (nComp iter : Nat)
    (st : List Cand) : (passB cfg robust nComp iter st).length = st.length := by
  unfold passB; exact length_passBFold cfg robust iter (residCands st) _ st

theorem passBBadIdx_mem (cfg : Config) (robust : List ℚ → ℚ × ℚ) (iter k : Nat)
    (cands : List (Nat × Cand)) (j : Nat) (hj : j ∈ passBBadIdx cfg robust iter k cands) :
    ∃ p ∈ cands, p.1 = j := by
  unfold passBBadIdx at hj
  obtain ⟨p, hp, hpj⟩ := List.mem_map.mp hj
  have hp1 := List.mem_of_mem_take hp
  rw [List.mem_insertionSort] at hp1
  unfold passBFlagged at hp1
  exact ⟨p, (List.mem_filter.mp hp1).1, hpj⟩

theorem passBComp_preserves (cfg : Config) (robust : List ℚ → ℚ × ℚ)
    (iter k : Nat) (cands : List (Nat × Cand)) (st : List Cand) (i : Nat)
    (h : i < st.length) (h2 : i < (passBComp cfg robust iter k cands st).length)
    (hnot : ∀ p ∈ cands, p.1 ≠ i) :
    (passBComp cfg robust iter k cands st)[i] = st[i] := by
  unfold passBComp
  rw [getElem_setBadAt _ st i h (by rw [length_setBadAt]; exact h)]
  rw [if_neg ?hni]
  case hni =>
    intro hmem
    obtain ⟨p, hp, hpi⟩ := passBBadIdx_mem cfg robust iter k cands i hmem
    exact hnot p hp hpi

theorem passBFold_preserves (cfg : Config) (robust : List ℚ → ℚ × ℚ)
    (iter : Nat) (cands : List (Nat × Cand)) (i : Nat)
    (hnot : ∀ p ∈ cands, p.1 ≠ i) :
    ∀ (ks : List Nat) (st : List Cand) (h : i < st.length)
      (h2 : i < (ks.foldl (fun s k => passBComp cfg robust iter k cands s) st).length),
      (ks.foldl (fun s k => passBComp cfg robust iter k cands s) st).get ⟨i, h2⟩
        = st.get ⟨i, h⟩ := by
  intro ks
  induction ks with
  | nil => intro st h h2; rfl
  | cons k ks ih =>
    intro st h h2
    have hlen : i < (passBComp cfg robust iter k cands st).length := by
      rw [length_passBComp]; exact h
    have hstep : (passBComp cfg robust iter k cands st)[i] = st[i] :=
      passBComp_preserves cfg robust iter k cands st i h hlen hnot
    have h2r : i < (List.foldl (fun s k => passBComp cfg robust iter k cands s)
        (passBComp cfg robust iter k cands st) ks).length := h2
    have hout : (List.foldl (fun s k => passBComp cfg robust iter k cands s)
          (passBComp cfg robust iter k cands st) ks).get ⟨i, h2r⟩
        = st.get ⟨i, h⟩ := by
      rw [ih (passBComp cfg robust iter k cands st) hlen h2r]
      exact hstep
    exact hout

/-! ## Claim theorems -/

/-- **C1** (code bug): Pass A is specified to mark
`numBad = round(count × (iter+1)/nIterations)` candidates BAD, and the
code's `int(... + 0.5)` shows rounding was the intent; but Python 2 floor
division between ints makes the `+ 0.5` dead, so the code floors instead.
At `count = 1`, `iter = 1`, `nIterForPsf = 3` the code computes `numBad = 0`
and marks nobody, where the claim requires `round(2/3) = 1`: on the
one-candidate state `stOne`, whose single candidate violates the chi-square
threshold, Pass A at iteration 1 changes nothing. -/
theorem passA_clip_count_floors_not_rounds :
    numBadOf 1 3 1 = 0 ∧ numBadSpecRound 1 3 1 = 1 ∧
    (passAFlagged cfgEx stOne).length = 1 ∧ passA cfgEx 1 stOne = stOne := by
  refine ⟨by decide, ?_, by decide, by decide⟩
  unfold numBadSpecRound
  norm_num [round_eq]

/-- **C2** (counterexample): after Pass A has marked a candidate BAD, the
residual-evaluation loop (`cell.begin(False)`, BAD included) still builds a
residual record for it, so the residual table and the `residuals[:,k]`
column fed to the robust statistics differ from what the claim (only
status ≠ BAD candidates) prescribes: on `stTwo` at iteration 2, candidate 0
is BAD yet appears in `residCands`, and column 0 is `[5, 0]` rather than
the spec's `[0]`. -/
theorem residual_eval_includes_bad_counterexample :
    ((residCands (passA cfgEx 2 (resetAll stTwo))).map (fun p => p.2.status)).contains
        Status.BAD = true ∧
    residCands (passA cfgEx 2 (resetAll stTwo))
      ≠ residCandsSpec (passA cfgEx 2 (resetAll stTwo)) ∧
    residColumn (residCands (passA cfgEx 2 (resetAll stTwo))) 0
      ≠ residColumn (residCandsSpec (passA cfgEx 2 (resetAll stTwo))) 0 := by
  refine ⟨by decide, by decide, by decide⟩

/-- **C2** (amended): residual evaluation — and hence the residual table and
per-component columns Pass B computes its robust statistics from — operates
on every candidate whose cutout succeeds, regardless of status: membership
in `residCands` depends only on the position/candidate pair being in the
list and its `cutoutOk` flag, never on its status. -/
theorem residual_eval_uses_all_cutoutOk_candidates (st : List Cand)
    (p : Nat × Cand) :
    p ∈ residCands st ↔ p ∈ st.enum ∧ p.2.cutoutOk = true := by
  unfold residCands
  rw [List.mem_filter]

/-- **C3**: at the start of each clipping round (after that round's basis
fit, whose inputs are the `st` passed in here) every candidate's status —
including any BAD left over from the previous round — is reset to UNKNOWN;
within the round a status only ever moves UNKNOWN → BAD: after both passes
each status is UNKNOWN or BAD, and a candidate BAD after Pass A is still
BAD after Pass B. -/
theorem clipRound_status_machine (cfg : Config) (robust : List ℚ → ℚ × ℚ)
    (nComp iter : Nat) (st : List Cand) :
    (∀ (i : Nat) (h : i < (resetAll st).length),
      ((resetAll st)[i]).status = Status.UNKNOWN) ∧
    (∀ (i : Nat) (h2 : i < (clipRound cfg robust nComp iter st).length),
      ((clipRound cfg robust nComp iter st)[i]).status = Status.UNKNOWN ∨
      ((clipRound cfg robust nComp iter st)[i]).status = Status.BAD) ∧
    (∀ (i : Nat) (hA : i < (passA cfg iter (resetAll st)).length)
        (h2 : i < (clipRound cfg robust nComp iter st).length),
      ((passA cfg iter (resetAll st))[i]).status = Status.BAD →
      ((clipRound cfg robust nComp iter st)[i]).status = Status.BAD) := by
  refine ⟨?_, ?_, ?_⟩
  · intro i h
    have hS : i < st.length := by rw [length_resetAll] at h; exact h
    rw [getElem_resetAll st i hS h]
  · intro i h2
    have h2p : i < (passB cfg robust nComp iter (passA cfg iter (resetAll st))).length := h2
    have hA : i < (passA cfg iter (resetAll st)).length := by
      rw [length_passB] at h2p; exact h2p
    have hR : i < (resetAll st).length := by rw [length_passA] at hA; exact hA
    have hS : i < st.length := by rw [length_resetAll] at hR; exact hR
    have hBcases := status_passBFold_cases cfg robust iter
      (residCands (passA cfg iter (resetAll st))) (List.range nComp)
      (passA cfg iter (resetAll st)) i hA h2p
    have hAcases : ((passA cfg iter (resetAll st))[i]).status
        = ((resetAll st)[i]).status ∨
        ((passA cfg iter (resetAll st))[i]).status = Status.BAD := by
      unfold passA
      exact status_setBadAt_cases _ _ i hR (by rw [length_setBadAt]; exact hR)
    have hUnk : ((resetAll st)[i]).status = Status.UNKNOWN := by
      rw [getElem_resetAll st i hS hR]
    have hout : ((passB cfg robust nComp iter (passA cfg iter (resetAll st)))[i]).status
        = Status.UNKNOWN ∨
        ((passB cfg robust nComp iter (passA cfg iter (resetAll st)))[i]).status
          = Status.BAD := by
      rcases hBcases with hsame | hbad
      · rcases hAcases with hsame2 | hbad2
        · exact Or.inl (hsame.trans (hsame2.trans hUnk))
        · exact Or.inr (hsame.trans hbad2)
      · exact Or.inr hbad
    exact hout
  · intro i hA h2 hbad
    have h2p : i < (passB cfg robust nComp iter (passA cfg iter (resetAll st))).length := h2
    have hout : ((passB cfg robust nComp iter (passA cfg iter (resetAll st)))[i]).status
        = Status.BAD :=
      status_passBFold_bad cfg robust iter
        (residCands (passA cfg iter (resetAll st))) (List.range nComp)
        (passA cfg iter (resetAll st)) i hA h2p hbad
    exact hout

/-- Witness for C3 on `stStale` (one candidate stale-GOOD and violating,
one stale-BAD and healthy) at iteration 2 of 3 with one basis component:
the stale BAD is reset to UNKNOWN, statuses after the round are UNKNOWN or
BAD, and candidate 0 — BAD after Pass A — stays BAD after Pass B. -/
theorem clipRound_status_machine_witness :
    ((resetAll stStale).get ⟨1, by decide⟩).status = Status.UNKNOWN ∧
    (((clipRound cfgEx robustEx 1 2 stStale).get ⟨0, by decide⟩).status
        = Status.UNKNOWN ∨
      ((clipRound cfgEx robustEx 1 2 stStale).get ⟨0, by decide⟩).status
        = Status.BAD) ∧
    ((clipRound cfgEx robustEx 1 2 stStale).get ⟨0, by decide⟩).status
      = Status.BAD :=
  ⟨(clipRound_status_machine cfgEx robustEx 1 2 stStale).1 1 (by decide),
   (clipRound_status_machine cfgEx robustEx 1 2 stStale).2.1 0 (by decide),
   (clipRound_status_machine cfgEx robustEx 1 2 stStale).2.2 0 (by decide)
     (by decide) (by decide)⟩

/-- **C4**: a candidate whose undistorted cutout cannot be constructed
(`cand.getUndistImage` raises, `cutoutOk = false`) is skipped by that
iteration's residual evaluation — no residual record at its position exists
— and Pass B leaves the candidate completely unchanged, so it is not marked
BAD by the spatial-residual pass and keeps the status it had when Pass B
started (i.e. its status after Pass A). -/
theorem cutout_failure_skipped_and_status_preserved (cfg : Config)
    (robust : List ℚ → ℚ × ℚ) (nComp iter : Nat) (st : List Cand) (i : Nat)
    (h : i < st.length) (hfail : (st.get ⟨i, h⟩).cutoutOk = false) :
    (∀ c : Cand, (i, c) ∉ residCands st) ∧
    ∀ (h2 : i < (passB cfg robust nComp iter st).length),
      (passB cfg robust nComp iter st).get ⟨i, h2⟩ = st.get ⟨i, h⟩ := by
  have hnotc : ∀ c : Cand, (i, c) ∉ residCands st := by
    intro c hc
    obtain ⟨hget, hok⟩ := residCands_mem hc
    rw [List.getElem?_eq_getElem h] at hget
    have hceq : st[i] = c := by
      simpa using hget
    rw [← hceq] at hok
    rw [show st.get ⟨i, h⟩ = st[i] from rfl] at hfail
    rw [hok] at hfail
    exact absurd hfail (by simp)
  refine ⟨hnotc, ?_⟩
  have hnot : ∀ p ∈ residCands st, p.1 ≠ i := by
    intro p hp hpi
    exact hnotc p.2 (by rw [← hpi]; exact hp)
  intro h2
  have main := passBFold_preserves cfg robust iter (residCands st) i hnot
    (List.range nComp) st h h2
  exact main

/-- Witness for C4: on `stFail` (candidate 0's cutout fails while carrying a
huge residual) Pass B at iteration 0 with one component leaves candidate 0
untouched, and no residual record exists for position 0. -/
theorem cutout_failure_skipped_and_status_preserved_witness :
    ((0, stFail.get ⟨0, by decide⟩) ∉ residCands stFail) ∧
    (passB cfgEx robustEx 1 0 stFail).get ⟨0, by decide⟩ = stFail.get ⟨0, by decide⟩ :=
  ⟨(cutout_failure_skipped_and_status_preserved cfgEx robustEx 1 0 stFail 0
      (by decide) (by decide)).1 (stFail.get ⟨0, by decide⟩),
   (cutout_failure_skipped_and_status_preserved cfgEx robustEx 1 0 stFail 0
      (by decide) (by decide)).2 (by decide)⟩

/-- **C6**: each raw eigenvalue is divided by
`(count of non-BAD candidates) × ((kernelSize + 2·borderWidth)² − 1)`
(with `countPsfCandidates` modelled from the spec, its C++ body not being
under src/). -/
theorem eigenvalues_normalized_per_star_per_dof (cfg : Config) (st : List Cand)
    (raw : List ℚ) :
    normalizedEigen cfg st raw =
      raw.map (fun l => l /
        ((countPsfCandidates st : ℚ) *
          (((cfg.kernelSize + 2 * cfg.borderWidth) ^ 2 - 1 : ℤ) : ℚ))) := by
  dsimp only [normalizedEigen]
  congr 1
  funext l
  rw [show ((cfg.kernelSize + 2 * cfg.borderWidth) * (cfg.kernelSize + 2 * cfg.borderWidth)
      - 1 : ℤ) = ((cfg.kernelSize + 2 * cfg.borderWidth) ^ 2 - 1 : ℤ) by ring]

/-- **C7**: for a fixed list of chi-square-violating candidates, the number
of candidates Pass A marks BAD is non-decreasing in the iteration index, and
at the final iteration (`nIterForPsf - 1`) it equals the full flagged
count. -/
theorem passA_clip_count_monotone_and_exhaustive (cfg : Config) (st : List Cand)
    (i j : Nat) (hij : i ≤ j) :
    (passABadIdx cfg i st).length ≤ (passABadIdx cfg j st).length ∧
    (0 < cfg.nIterForPsf →
      (passABadIdx cfg (cfg.nIterForPsf - 1) st).length
        = (passAFlagged cfg st).length) := by
  constructor
  · rw [length_passABadIdx, length_passABadIdx]
    refine min_le_min ?_ le_rfl
    unfold numBadOf
    exact Nat.div_le_div_right (Nat.mul_le_mul_left _ (Nat.succ_le_succ hij))
  · intro hN
    rw [length_passABadIdx]
    unfold numBadOf
    rw [Nat.sub_add_cancel hN, Nat.mul_div_cancel _ hN, min_self]

/-- Witness for C7 at `cfgEx` (3 iterations) and the one-violator state. -/
theorem passA_clip_count_monotone_and_exhaustive_witness :
    ((passABadIdx cfgEx 0 stOne).length ≤ (passABadIdx cfgEx 1 stOne).length) ∧
    (passABadIdx cfgEx (cfgEx.nIterForPsf - 1) stOne).length
      = (passAFlagged cfgEx stOne).length :=
  ⟨(passA_clip_count_monotone_and_exhaustive cfgEx stOne 0 1 (by decide)).1,
   (passA_clip_count_monotone_and_exhaustive cfgEx stOne 0 1 (by decide)).2 (by decide)⟩

/-- **C5**: for configured `kernelSize < 15` and candidate-size median `m`,
the derived size equals `2·round(kernelSize·sqrt(m))+1` clamped into
`[kernelSizeMin, kernelSizeMax]`; for configured `kernelSize ≥ 15` the
configured value is used verbatim with no scaling and no clamping —
`newKernelSize` (the code's truncate-after-adding-one-half and sequential
clamp branches) coincides with `claimKernelSize` (the claim's formula). -/
theorem kernelSize_derivation_matches_spec (cfg : Config) (m : ℝ)
    (hclamp : cfg.kernelSizeMin ≤ cfg.kernelSizeMax) (hk : 0 ≤ cfg.kernelSize) :
    newKernelSize cfg m = claimKernelSize cfg m := by
  unfold newKernelSize claimKernelSize
  by_cases h15 : 15 ≤ cfg.kernelSize
  · rw [if_pos h15, if_pos h15]
  · rw [if_neg h15, if_neg h15]
    have hx : (0:ℝ) ≤ (cfg.kernelSize : ℝ) * Real.sqrt m + 1/2 := by
      have h1 : (0:ℝ) ≤ (cfg.kernelSize : ℝ) := by exact_mod_cast hk
      have h2 := Real.sqrt_nonneg m
      nlinarith
    unfold pyTrunc
    rw [if_pos hx, ← round_eq]
    unfold clampMax clampMin
    split_ifs <;> omega

/-- Witness for C5 at the default config (`kernelSize = 5 < 15`,
`[13, 45]` clamp window) and median 4. -/
theorem kernelSize_derivation_matches_spec_witness :
    (cfgEx.kernelSizeMin ≤ cfgEx.kernelSizeMax ∧ 0 ≤ cfgEx.kernelSize) ∧
    newKernelSize cfgEx 4 = claimKernelSize cfgEx 4 :=
  ⟨⟨by decide, by decide⟩,
   kernelSize_derivation_matches_spec cfgEx 4 (by decide) (by decide)⟩

/-- `newKernelSize` on a config whose `kernelSize` is already at least 15
returns that value verbatim (the absolute-size branch). -/
theorem newKernelSize_of_ge (cfg : Config) (m : ℝ) (h : 15 ≤ cfg.kernelSize) :
    newKernelSize cfg m = cfg.kernelSize := by
  unfold newKernelSize
  rw [if_pos h]

/-- The derived kernel size at the default config with median 4:
`2·int(5·2 + 0.5)+1 = 21`, inside the `[13, 45]` window. -/
theorem newKernelSize_cfgEx_four : newKernelSize cfgEx (4:ℝ) = 21 := by
  have hs : Real.sqrt 4 = 2 := by
    rw [show (4:ℝ) = 2^2 by norm_num]
    exact Real.sqrt_sq (by norm_num)
  unfold newKernelSize
  rw [if_neg (by decide)]
  have harg : (cfgEx.kernelSize : ℝ) * Real.sqrt 4 + 1/2 = 21/2 := by
    rw [show cfgEx.kernelSize = (5:ℤ) from rfl, hs]
    norm_num
  have htr : pyTrunc ((cfgEx.kernelSize : ℝ) * Real.sqrt 4 + 1/2) = 10 := by
    unfold pyTrunc
    rw [harg, if_pos (by norm_num)]
    rw [Int.floor_eq_iff]
    norm_num
  rw [htr]
  decide

/-- The derived kernel size at the default config with median 9:
`2·int(5·3 + 0.5)+1 = 31`, inside the `[13, 45]` window. -/
theorem newKernelSize_cfgEx_nine : newKernelSize cfgEx (9:ℝ) = 31 := by
  have hs : Real.sqrt 9 = 3 := by
    rw [show (9:ℝ) = 3^2 by norm_num]
    exact Real.sqrt_sq (by norm_num)
  unfold newKernelSize
  rw [if_neg (by decide)]
  have harg : (cfgEx.kernelSize : ℝ) * Real.sqrt 9 + 1/2 = 31/2 := by
    rw [show cfgEx.kernelSize = (5:ℤ) from rfl, hs]
    norm_num
  have htr : pyTrunc ((cfgEx.kernelSize : ℝ) * Real.sqrt 9 + 1/2) = 15 := by
    unfold pyTrunc
    rw [harg, if_pos (by norm_num)]
    rw [Int.floor_eq_iff]
    norm_num
  rw [htr]
  decide

/-- **C9**: `determinePsf` writes the derived kernel size back into the
shared `self.config.kernelSize`; when the first call derives a size ≥ 15,
a second call on the same determiner takes the absolute-size branch and
returns the first call's derived size verbatim, for any median `m'` of the
second call's candidates (so no median-based derivation happens). -/
theorem determinePsf_mutates_config_kernelSize (cfg : Config) (m : ℝ)
    (h : 15 ≤ newKernelSize cfg m) (m' : ℝ) :
    (updateKernelSize cfg m).kernelSize = newKernelSize cfg m ∧
    newKernelSize (updateKernelSize cfg m) m' = newKernelSize cfg m := by
  refine ⟨rfl, ?_⟩
  exact newKernelSize_of_ge (updateKernelSize cfg m) m' h

/-- Witness for C9: first call with median 4 derives 21 ≥ 15; a second call
with median 9 (which by itself would derive 31) returns 21 verbatim. -/
theorem determinePsf_mutates_config_kernelSize_witness :
    (15 ≤ newKernelSize cfgEx 4) ∧
    newKernelSize (updateKernelSize cfgEx 4) 9 = newKernelSize cfgEx 4 :=
  ⟨by rw [newKernelSize_cfgEx_four]; norm_num,
   (determinePsf_mutates_config_kernelSize cfgEx 4
      (by rw [newKernelSize_cfgEx_four]; norm_num) 9).2⟩

/-- **C10**: the `sizes` array is allocated uninitialized with one slot per
input candidate and a slot is written only when that candidate's insertion
succeeds; with a failing insertion (`okEx` has a `false` slot) the median —
and hence the derived kernel size — depends on the arbitrary pre-existing
contents of the unassigned slots: two possible junk contents (`junkA`,
`junkB`) of the same allocation give medians 4 vs 9 and derived kernel
sizes 21 vs 31. -/
theorem sizes_median_depends_on_uninitialized_entries :
    (∃ i, i < okEx.length ∧ okEx.getD i false = false) ∧
    npMedian (buildSizes okEx csEx junkA) ≠ npMedian (buildSizes okEx csEx junkB) ∧
    newKernelSize cfgEx ((npMedian (buildSizes okEx csEx junkA) : ℚ) : ℝ)
      ≠ newKernelSize cfgEx ((npMedian (buildSizes okEx csEx junkB) : ℚ) : ℝ) := by
  refine ⟨⟨1, by decide, by decide⟩, by decide, ?_⟩
  have h1 : npMedian (buildSizes okEx csEx junkA) = 4 := by decide
  have h2 : npMedian (buildSizes okEx csEx junkB) = 9 := by decide
  rw [h1, h2]
  rw [show (((4:ℚ)):ℝ) = (4:ℝ) by norm_num, show (((9:ℚ)):ℝ) = (9:ℝ) by norm_num]
  rw [newKernelSize_cfgEx_four, newKernelSize_cfgEx_nine]
  decide

/-- **C8**: after the `nIterForPsf` loop iterations, exactly one additional
basis fit is performed (the trace holds `nIterForPsf + 1` fit outputs), it
is applied to the candidate state as left by the final iteration's clipping
passes, and the PSF returned by `determinePsf` is that final refit's output
— the last fit of the trace, not any in-loop one. -/
theorem final_refit_returns_last_fit (fit : List Cand → FitOut × List Cand)
    (clip : Nat → List Cand → List Cand) (nIter : Nat) (st0 : List Cand) :
    (determinePsfLoop fit clip nIter st0).1 = (fit (runLoop fit clip nIter 0 st0).2).1 ∧
    (determinePsfLoop fit clip nIter st0).2.1.length = nIter + 1 ∧
    (determinePsfLoop fit clip nIter st0).2.1.getLast? =
      some (determinePsfLoop fit clip nIter st0).1 := by
  refine ⟨rfl, ?_, ?_⟩
  · simp [determinePsfLoop, runLoop_trace_length]
  · simp [determinePsfLoop]

end PcaPsf
